import Mathlib

/-!
Shallow embedding of the `speechify_client` Python package
(`speechify_client/models.py`, `speechify_client/exceptions.py`,
`speechify_client/client.py`) and proofs about its request construction,
response normalization and error mapping.

JSON values returned by the HTTP layer are modelled by the inductive type
`Spc.Json`; Python `None` and JSON `null` coincide (as they do through
`json.loads`), JSON numbers are modelled as rationals. Python dictionaries
coming from JSON are association lists with distinct keys; `dict.get` is
`Spc.dictGet`. All code translated from the source keeps the names of the source.
-/

namespace Spc

/-- JSON values as delivered by `response.json()`. Numbers are rationals
(every JSON numeral denotes a rational; the claims only use values such as
`2.5` and `44100` that are exactly representable). -/
inductive Json where
  | null
  | bool (b : Bool)
  | num (q : ℚ)
  | str (s : String)
  | arr (elems : List Json)
  | obj (fields : List (String × Json))

/-- First-match lookup in an association list representing a Python dict
(`d[k]` when present, `none` otherwise). JSON objects have distinct keys, so
first-match agrees with Python dict lookup. -/
def jlookup (fields : List (String × Json)) (k : String) : Option Json :=
  match fields with
  | [] => none
  | (k₁, v) :: rest => if k₁ = k then some v else jlookup rest k

/-- Python `d.get(k, default)`. -/
def dictGet (fields : List (String × Json)) (k : String) (default : Json) : Json :=
  (jlookup fields k).getD default

/-- Python `d.get(k)`: absent keys yield `None` (= `Json.null`). -/
def dictGetOpt (fields : List (String × Json)) (k : String) : Json :=
  dictGet fields k .null

/-- Python truthiness of a JSON-shaped value: `None`, `False`, `0`, `""`,
`[]` and `{}` are falsy, everything else truthy. -/
def Json.truthy : Json → Bool
  | .null => false
  | .bool b => b
  | .num q => q != 0
  | .str s => s != ""
  | .arr elems => !elems.isEmpty
  | .obj fields => !fields.isEmpty

/-- Python `str.isspace` characters, restricted to the ASCII whitespace the
claims exercise (space, tab, newline, carriage return, vertical tab, form
feed). -/
def pyIsSpace (c : Char) : Bool :=
  c = ' ' || c = '\t' || c = '\n' || c = '\r' || c.toNat = 0x0b || c.toNat = 0x0c

/-- Python condition `not s or not s.strip()`: the string is empty or consists
only of whitespace. -/
def pyBlank (s : String) : Bool :=
  s.toList.all pyIsSpace

/-- Python `str(v)` as used in the f-string that builds the Authorization
header value. The claims only evaluate it at strings; the renderings of
composite values are placeholders never reached by any claim. -/
def Json.pyStr : Json → String
  | .str s => s
  | .null => "None"
  | .bool true => "True"
  | .bool false => "False"
  | .num q => toString q
  | .arr _ => "<list>"
  | .obj _ => "<dict>"

/-! Error taxonomy (`speechify_client/exceptions.py`). All three exception
classes share `message`, optional `status_code` and optional `response_data`.
The `message` slot holds a JSON-shaped value because
`error_data.get("message", ...)` can surface an arbitrary JSON value. -/

/-- Payload common to the three exception classes of `exceptions.py`. -/
structure ErrorInfo where
  message : Json
  status_code : Option Nat := none
  response_data : Option Json := none

/-- Failures an operation can surface. The last constructor models the
Python `AttributeError` raised when `.get` is called on a non-dict value,
and `typeError` the failure of iterating a non-list value; neither is one of
the exception classes of the library itself. -/
inductive PyError where
  | validationError (e : ErrorInfo)
  | authenticationError (e : ErrorInfo)
  | apiError (e : ErrorInfo)
  | attributeError
  | typeError

/-! Data records (`speechify_client/models.py`). Fields that receive values
straight out of a JSON payload are `Json`-typed, because the Python code
performs no coercion: whatever `dict.get` yields is stored. -/

/-- Voice metadata dataclass; `gender`/`language` default to `None`. -/
structure Voice where
  voice_id : Json
  name : Json
  gender : Json := .null
  language : Json := .null

/-- Request dataclass for speech synthesis. Caller-constructed, so the
fields carry the Python types of `models.py`. -/
structure SpeechSynthesisRequest where
  input_text : String
  voice_id : String
  audio_format : String
  sample_rate : Option Int := none
  style : Option String := none
  emotion : Option String := none

/-- Field list produced by `dataclasses.asdict` on `SpeechSynthesisRequest`,
in declaration order, with `None`-valued optionals as `none`. -/
def SpeechSynthesisRequest.asdict (r : SpeechSynthesisRequest) :
    List (String × Option Json) :=
  [("input_text", some (.str r.input_text)),
   ("voice_id", some (.str r.voice_id)),
   ("audio_format", some (.str r.audio_format)),
   ("sample_rate", r.sample_rate.map (fun n => .num (n : ℚ))),
   ("style", r.style.map .str),
   ("emotion", r.emotion.map .str)]

/-- Transcription of `SpeechSynthesisRequest.to_dict`: keep the fields whose
value is not `None` and whose key is not `"input_text"`, then merge in
`{"input": self.input_text}` (Python `|` adds the new key at the end). -/
def SpeechSynthesisRequest.to_dict (r : SpeechSynthesisRequest) :
    List (String × Json) :=
  (r.asdict.filterMap fun kv =>
    match kv.2 with
    | some v => if kv.1 = "input_text" then none else some (kv.1, v)
    | none => none)
  ++ [("input", .str r.input_text)]

/-- Response dataclass for speech synthesis; always built by `from_dict`, so
all fields hold the raw JSON values. -/
structure SpeechSynthesisResponse where
  audio_data : Json
  duration : Json
  sample_rate : Json
  format : Json

/-- Transcription of `SpeechSynthesisResponse.from_dict`. Calling it on a
non-dict payload is the Python `AttributeError` of `.get`. -/
def SpeechSynthesisResponse.from_dict (data : Json) :
    Except PyError SpeechSynthesisResponse :=
  match data with
  | .obj d => .ok
      { audio_data := dictGet d "audioData" (dictGet d "audio_data" (.str "")),
        duration := dictGetOpt d "duration",
        sample_rate := dictGet d "sample_rate" (dictGetOpt d "sampleRate"),
        format := dictGetOpt d "format" }
  | _ => .error .attributeError

/-- Access-token dataclass; always built by `from_dict`. -/
structure AccessToken where
  access_token : Json
  token_type : Json
  expires_in : Json
  scope : Json

/-- Transcription of `AccessToken.from_dict`. -/
def AccessToken.from_dict (data : Json) : Except PyError AccessToken :=
  match data with
  | .obj d => .ok
      { access_token := dictGet d "access_token" (.str ""),
        token_type := dictGet d "token_type" (.str "bearer"),
        expires_in := dictGet d "expires_in" (.num 3600),
        scope := dictGetOpt d "scope" }
  | _ => .error .attributeError

/-! Client embedding (`speechify_client/client.py`). The HTTP layer is
modelled by the outcome of the single request an operation issues: either a
response (status, parsed body, raw text) or a transport-level exception
(`requests.RequestException`). `response.json()` is represented by the
`body` field: `some j` when the text parses as JSON, `none` when parsing
raises; `decodeErrDesc` stands for `str(e)` of that parse error, which the
success path surfaces because the JSON decode error of `requests` is itself
a `RequestException`. -/

/-- Observable outcome of `Session.request` plus body parsing. -/
structure HttpResponse where
  status : Nat
  body : Option Json
  text : String := ""
  decodeErrDesc : String := ""

/-- Either a response or a transport-level exception with its description. -/
inductive Transport where
  | ok (r : HttpResponse)
  | exn (desc : String)

/-- Mutable state of a `SpeechifyClient` instance: the validated API key and
the `_access_token` slot (`None` until `create_access_token` succeeds). -/
structure ClientState where
  api_key : String
  base_url : String := "https://api.sws.speechify.com/v1"
  access_token : Option Json := none

/-- Credential chosen by `_get_headers`: the Python expression
`self._access_token if use_access_token and self._access_token else
self.api_key`, with Python truthiness on the cached token. -/
def headerCredential (st : ClientState) (use_access_token : Bool) : Json :=
  match st.access_token with
  | some t => if use_access_token && t.truthy then t else .str st.api_key
  | none => .str st.api_key

/-- Transcription of `SpeechifyClient._get_headers`. -/
def get_headers (st : ClientState) (use_access_token : Bool) :
    List (String × String) :=
  [("Authorization", "Bearer " ++ (headerCredential st use_access_token).pyStr),
   ("Content-Type", "application/json")]

/-- Wire request assembled by `_make_request` before dispatch. -/
structure IssuedRequest where
  method : String
  url : String
  json_data : Option Json
  headers : List (String × String)

/-- Request `_make_request` sends for the given arguments. -/
def make_request_issued (st : ClientState) (method endpoint : String)
    (json_data : Option Json) (use_access_token : Bool) : IssuedRequest :=
  { method := method, url := st.base_url ++ endpoint, json_data := json_data,
    headers := get_headers st use_access_token }

/-- Transcription of the response classification in
`SpeechifyClient._make_request`: 401 first, then the generic error branch
(JSON body, else `{"message": response.text}`; `.get` on a non-dict body is
an `AttributeError`), then the success branch, whose JSON decode failure is
caught by the `requests.RequestException` handler. -/
def make_request (st : ClientState) (method endpoint : String)
    (json_data : Option Json) (use_access_token : Bool) (t : Transport) :
    Except PyError Json :=
  match t with
  | .exn desc =>
      .error (.apiError { message := .str ("Request failed: " ++ desc) })
  | .ok r =>
      if r.status = 401 then
        .error (.authenticationError
          { message := .str "Invalid API key or expired access token",
            status_code := some r.status })
      else if 400 ≤ r.status then
        let error_data : Json :=
          match r.body with
          | some j => j
          | none => .obj [("message", .str r.text)]
        match error_data with
        | .obj d =>
            .error (.apiError
              { message := dictGet d "message"
                  (.str ("API error: " ++ toString r.status)),
                status_code := some r.status,
                response_data := some (.obj d) })
        | _ => .error .attributeError
      else
        match r.body with
        | some j => .ok j
        | none =>
            .error (.apiError
              { message := .str ("Request failed: " ++ r.decodeErrDesc) })

/-- Voice id extraction of `list_voices`:
`voice_data.get("id", voice_data.get("voice_id", ""))`. -/
def pickVoiceId (d : List (String × Json)) : Json :=
  dictGet d "id" (dictGet d "voice_id" (.str ""))

/-- Voice built from one entry of the voice list in `list_voices`; a
non-dict entry fails like the Python `.get` on it. -/
def voiceOfEntry (voice_data : Json) : Except PyError Voice :=
  match voice_data with
  | .obj d => .ok
      { voice_id := pickVoiceId d,
        name := dictGet d "name" (.str ""),
        gender := dictGetOpt d "gender",
        language := dictGetOpt d "language" }
  | _ => .error .attributeError

/-- Loop of `list_voices` over the extracted voice list: build each Voice in
order, aborting at the first failing entry (a raised exception propagates). -/
def parseVoices : List Json → Except PyError (List Voice)
  | [] => .ok []
  | voice_data :: rest =>
      match voiceOfEntry voice_data with
      | .error e => .error e
      | .ok v =>
          match parseVoices rest with
          | .error e => .error e
          | .ok vs => .ok (v :: vs)

/-- Shape handling of `list_voices`: a bare list is used as-is, otherwise
`response_data.get("voices", [])` must be iterable as a list (a non-dict
response fails `.get` with `AttributeError`; iterating a non-list value of
the `voices` key fails — collapsed to `typeError`, a case no claim
exercises). -/
def extractVoiceList (response_data : Json) : Except PyError (List Json) :=
  match response_data with
  | .arr elems => .ok elems
  | .obj d =>
      match dictGet d "voices" (.arr []) with
      | .arr elems => .ok elems
      | _ => .error .typeError
  | _ => .error .attributeError

/-- Transcription of `SpeechifyClient.synthesize`. The first component is
the wire request issued (`none`: the executor was never invoked); `speed`
is accepted and ignored exactly as in the source. -/
def synthesize (st : ClientState) (text voice_id : String) (speed : ℚ)
    (audio_format : String) (t : Transport) :
    Option IssuedRequest × Except PyError SpeechSynthesisResponse :=
  if pyBlank text then
    (none, .error (.validationError { message := .str "Text input cannot be empty" }))
  else if pyBlank voice_id then
    (none, .error (.validationError { message := .str "Voice ID cannot be empty" }))
  else
    let request_data : SpeechSynthesisRequest :=
      { input_text := text, voice_id := voice_id, audio_format := audio_format }
    (some (make_request_issued st "POST" "/audio/speech"
        (some (.obj request_data.to_dict)) false),
     match make_request st "POST" "/audio/speech"
         (some (.obj request_data.to_dict)) false t with
     | .ok response_data => SpeechSynthesisResponse.from_dict response_data
     | .error e => .error e)

/-- Response processing of `list_voices`: shape normalization followed by
the per-entry loop, with any raised error propagating. -/
def list_voices_result (t_result : Except PyError Json) :
    Except PyError (List Voice) :=
  match t_result with
  | .error e => .error e
  | .ok response_data =>
      match extractVoiceList response_data with
      | .error e => .error e
      | .ok voice_list => parseVoices voice_list

/-- Transcription of `SpeechifyClient.list_voices`. -/
def list_voices (st : ClientState) (t : Transport) :
    Option IssuedRequest × Except PyError (List Voice) :=
  (some (make_request_issued st "GET" "/voices" none false),
   list_voices_result (make_request st "GET" "/voices" none false t))

/-- Response processing of `get_voice`; note the inner
`response_data.get("voice_id")` has no default, so a record with neither key
yields `None` as the voice id. -/
def get_voice_result (t_result : Except PyError Json) : Except PyError Voice :=
  match t_result with
  | .error e => .error e
  | .ok response_data =>
      match response_data with
      | .obj d => .ok
          { voice_id := dictGet d "id" (dictGetOpt d "voice_id"),
            name := dictGet d "name" (.str ""),
            gender := dictGetOpt d "gender",
            language := dictGetOpt d "language" }
      | _ => .error .attributeError

/-- Transcription of `SpeechifyClient.get_voice`. -/
def get_voice (st : ClientState) (voice_id : String) (t : Transport) :
    Option IssuedRequest × Except PyError Voice :=
  if pyBlank voice_id then
    (none, .error (.validationError { message := .str "Voice ID cannot be empty" }))
  else
    (some (make_request_issued st "GET" ("/voices/" ++ voice_id) none false),
     get_voice_result (make_request st "GET" ("/voices/" ++ voice_id) none false t))

/-- Transcription of `SpeechifyClient.create_access_token`: requested with
the default `use_access_token = False`, and on success the `access_token`
field of the token is stored in the client state. The third component is
the client state after the call. -/
def create_access_token (st : ClientState) (t : Transport) :
    Option IssuedRequest × Except PyError AccessToken × ClientState :=
  let issued := make_request_issued st "POST" "/auth/token" none false
  match make_request st "POST" "/auth/token" none false t with
  | .error e => (some issued, .error e, st)
  | .ok response_data =>
      match AccessToken.from_dict response_data with
      | .error e => (some issued, .error e, st)
      | .ok token =>
          (some issued, .ok token, { st with access_token := some token.access_token })

/-! Shared helper lemmas. -/

/-- Requests made with `use_access_token = False` always carry the API key,
whatever is cached. -/
lemma headers_api_key (st : ClientState) :
    get_headers st false =
      [("Authorization", "Bearer " ++ st.api_key),
       ("Content-Type", "application/json")] := by
  cases h : st.access_token <;>
    simp [get_headers, headerCredential, h, Json.pyStr]

/-- C1: a blank (empty or whitespace-only) `text` or `voice_id` makes
`synthesize` fail with ValidationError before any request is issued, and a
blank `voice_id` does the same for `get_voice`; in both cases the executor
is never invoked (no issued request) for any transport behaviour. -/
theorem C1_blank_input_validation (st : ClientState) (text voice_id : String)
    (speed : ℚ) (audio_format : String) (t : Transport)
    (h : pyBlank text = true ∨ pyBlank voice_id = true) :
    ((synthesize st text voice_id speed audio_format t).1 = none ∧
     ∃ e, (synthesize st text voice_id speed audio_format t).2 =
       .error (.validationError e)) ∧
    (pyBlank voice_id = true →
      (get_voice st voice_id t).1 = none ∧
      ∃ e, (get_voice st voice_id t).2 = .error (.validationError e)) := by
  constructor
  · by_cases ht : pyBlank text = true
    · exact ⟨by simp [synthesize, ht],
        { message := .str "Text input cannot be empty" }, by simp [synthesize, ht]⟩
    · have hv : pyBlank voice_id = true := h.resolve_left ht
      exact ⟨by simp [synthesize, ht, hv],
        { message := .str "Voice ID cannot be empty" }, by simp [synthesize, ht, hv]⟩
  · intro hv
    exact ⟨by simp [get_voice, hv],
      { message := .str "Voice ID cannot be empty" }, by simp [get_voice, hv]⟩

/-- C1 witness: concrete blank inputs. -/
theorem C1_blank_input_validation_witness :
    (((synthesize { api_key := "k" } " " "voice-1" 1 "mp3" (.exn "boom")).1 = none ∧
      ∃ e, (synthesize { api_key := "k" } " " "voice-1" 1 "mp3" (.exn "boom")).2 =
        .error (.validationError e)) ∧
     (pyBlank "voice-1" = true →
       (get_voice { api_key := "k" } "voice-1" (.exn "boom")).1 = none ∧
       ∃ e, (get_voice { api_key := "k" } "voice-1" (.exn "boom")).2 =
         .error (.validationError e))) := by
  exact C1_blank_input_validation { api_key := "k" } " " "voice-1" 1 "mp3"
    (.exn "boom") (Or.inl (by decide))

/-- C3: a 401 response makes every operation fail with AuthenticationError
carrying status code 401, even though 401 also satisfies the generic
`status >= 400` test (the 401 branch is checked first). -/
theorem C3_unauthorized (st : ClientState) (method endpoint : String)
    (json_data : Option Json) (use : Bool) (r : HttpResponse)
    (text voice_id : String) (speed : ℚ) (audio_format : String)
    (hstatus : r.status = 401)
    (htext : pyBlank text = false) (hvid : pyBlank voice_id = false) :
    (make_request st method endpoint json_data use (.ok r) =
       .error (.authenticationError
         { message := .str "Invalid API key or expired access token",
           status_code := some 401 })) ∧
    (list_voices st (.ok r)).2 =
       .error (.authenticationError
         { message := .str "Invalid API key or expired access token",
           status_code := some 401 }) ∧
    (get_voice st voice_id (.ok r)).2 =
       .error (.authenticationError
         { message := .str "Invalid API key or expired access token",
           status_code := some 401 }) ∧
    (synthesize st text voice_id speed audio_format (.ok r)).2 =
       .error (.authenticationError
         { message := .str "Invalid API key or expired access token",
           status_code := some 401 }) ∧
    (create_access_token st (.ok r)).2.1 =
       .error (.authenticationError
         { message := .str "Invalid API key or expired access token",
           status_code := some 401 }) := by
  have hm : ∀ m e jd u, make_request st m e jd u (.ok r) =
      .error (.authenticationError
        { message := .str "Invalid API key or expired access token",
          status_code := some 401 }) := by
    intro m e jd u
    simp [make_request, hstatus]
  refine ⟨hm _ _ _ _, ?_, ?_, ?_, ?_⟩
  · simp [list_voices, list_voices_result, hm]
  · simp [get_voice, get_voice_result, hvid, hm]
  · simp [synthesize, htext, hvid, hm]
  · simp [create_access_token, hm]

/-- C3 witness: a concrete 401 response against all four operations. -/
theorem C3_unauthorized_witness :
    (make_request { api_key := "k" } "GET" "/voices" none false
       (.ok { status := 401, body := none }) =
       .error (.authenticationError
         { message := .str "Invalid API key or expired access token",
           status_code := some 401 })) ∧
    (list_voices { api_key := "k" } (.ok { status := 401, body := none })).2 =
       .error (.authenticationError
         { message := .str "Invalid API key or expired access token",
           status_code := some 401 }) ∧
    (get_voice { api_key := "k" } "voice-1"
       (.ok { status := 401, body := none })).2 =
       .error (.authenticationError
         { message := .str "Invalid API key or expired access token",
           status_code := some 401 }) ∧
    (synthesize { api_key := "k" } "Hello" "voice-1" 1 "mp3"
       (.ok { status := 401, body := none })).2 =
       .error (.authenticationError
         { message := .str "Invalid API key or expired access token",
           status_code := some 401 }) ∧
    (create_access_token { api_key := "k" }
       (.ok { status := 401, body := none })).2.1 =
       .error (.authenticationError
         { message := .str "Invalid API key or expired access token",
           status_code := some 401 }) := by
  exact C3_unauthorized { api_key := "k" } "GET" "/voices" none false
    { status := 401, body := none } "Hello" "voice-1" 1 "mp3" rfl
    (by decide) (by decide)

/-- C4: a transport-level exception makes every operation fail with APIError
whose message is exactly `"Request failed: "` followed by the description
of the cause, with no status code and no response data. -/
theorem C4_transport_error (st : ClientState) (desc method endpoint : String)
    (json_data : Option Json) (use : Bool)
    (text voice_id : String) (speed : ℚ) (audio_format : String)
    (htext : pyBlank text = false) (hvid : pyBlank voice_id = false) :
    (make_request st method endpoint json_data use (.exn desc) =
       .error (.apiError { message := .str ("Request failed: " ++ desc),
                           status_code := none, response_data := none })) ∧
    (list_voices st (.exn desc)).2 =
       .error (.apiError { message := .str ("Request failed: " ++ desc),
                           status_code := none, response_data := none }) ∧
    (get_voice st voice_id (.exn desc)).2 =
       .error (.apiError { message := .str ("Request failed: " ++ desc),
                           status_code := none, response_data := none }) ∧
    (synthesize st text voice_id speed audio_format (.exn desc)).2 =
       .error (.apiError { message := .str ("Request failed: " ++ desc),
                           status_code := none, response_data := none }) ∧
    (create_access_token st (.exn desc)).2.1 =
       .error (.apiError { message := .str ("Request failed: " ++ desc),
                           status_code := none, response_data := none }) := by
  have hm : ∀ m e jd u, make_request st m e jd u (.exn desc) =
      .error (.apiError { message := .str ("Request failed: " ++ desc),
                          status_code := none, response_data := none }) := by
    intro m e jd u
    simp [make_request]
  refine ⟨hm _ _ _ _, ?_, ?_, ?_, ?_⟩
  · simp [list_voices, list_voices_result, hm]
  · simp [get_voice, get_voice_result, hvid, hm]
  · simp [synthesize, htext, hvid, hm]
  · simp [create_access_token, hm]

/-- C4 witness: a concrete connection failure against all four operations. -/
theorem C4_transport_error_witness :
    (make_request { api_key := "k" } "GET" "/voices" none false
       (.exn "Network error") =
       .error (.apiError { message := .str "Request failed: Network error",
                           status_code := none, response_data := none })) ∧
    (list_voices { api_key := "k" } (.exn "Network error")).2 =
       .error (.apiError { message := .str "Request failed: Network error",
                           status_code := none, response_data := none }) ∧
    (get_voice { api_key := "k" } "voice-1" (.exn "Network error")).2 =
       .error (.apiError { message := .str "Request failed: Network error",
                           status_code := none, response_data := none }) ∧
    (synthesize { api_key := "k" } "Hello" "voice-1" 1 "mp3"
       (.exn "Network error")).2 =
       .error (.apiError { message := .str "Request failed: Network error",
                           status_code := none, response_data := none }) ∧
    (create_access_token { api_key := "k" } (.exn "Network error")).2.1 =
       .error (.apiError { message := .str "Request failed: Network error",
                           status_code := none, response_data := none }) := by
  have h := C4_transport_error { api_key := "k" } "Network error" "GET" "/voices"
    none false "Hello" "voice-1" 1 "mp3" (by decide) (by decide)
  simpa using h

/-- C6: `SpeechSynthesisRequest` serializes with `input_text` renamed to
`input`, keeps `voice_id` and `audio_format`, omits unset optional fields,
and the body `synthesize` sends is exactly
`{"voice_id": voice_id, "audio_format": audio_format, "input": text}` —
in particular it has no `speed` key for any value of `speed`. -/
theorem C6_request_serialization (r : SpeechSynthesisRequest)
    (st : ClientState) (text voice_id : String) (speed : ℚ)
    (audio_format : String) (t : Transport)
    (htext : pyBlank text = false) (hvid : pyBlank voice_id = false) :
    jlookup r.to_dict "input" = some (.str r.input_text) ∧
    jlookup r.to_dict "input_text" = none ∧
    jlookup r.to_dict "voice_id" = some (.str r.voice_id) ∧
    jlookup r.to_dict "audio_format" = some (.str r.audio_format) ∧
    (r.sample_rate = none → jlookup r.to_dict "sample_rate" = none) ∧
    (r.style = none → jlookup r.to_dict "style" = none) ∧
    (r.emotion = none → jlookup r.to_dict "emotion" = none) ∧
    (synthesize st text voice_id speed audio_format t).1 =
      some { method := "POST", url := st.base_url ++ "/audio/speech",
             json_data := some (.obj [("voice_id", .str voice_id),
                                      ("audio_format", .str audio_format),
                                      ("input", .str text)]),
             headers := get_headers st false } ∧
    jlookup [("voice_id", Json.str voice_id),
             ("audio_format", Json.str audio_format),
             ("input", Json.str text)] "speed" = none := by
  obtain ⟨it, vid, fmt, sr, sty, emo⟩ := r
  refine ⟨?_, ?_, ?_, ?_, ?_, ?_, ?_, ?_, ?_⟩
  · cases sr <;> cases sty <;> cases emo <;>
      simp [SpeechSynthesisRequest.to_dict, SpeechSynthesisRequest.asdict, jlookup]
  · cases sr <;> cases sty <;> cases emo <;>
      simp [SpeechSynthesisRequest.to_dict, SpeechSynthesisRequest.asdict, jlookup]
  · cases sr <;> cases sty <;> cases emo <;>
      simp [SpeechSynthesisRequest.to_dict, SpeechSynthesisRequest.asdict, jlookup]
  · cases sr <;> cases sty <;> cases emo <;>
      simp [SpeechSynthesisRequest.to_dict, SpeechSynthesisRequest.asdict, jlookup]
  · intro h
    cases h
    cases sty <;> cases emo <;>
      simp [SpeechSynthesisRequest.to_dict, SpeechSynthesisRequest.asdict, jlookup]
  · intro h
    cases h
    cases sr <;> cases emo <;>
      simp [SpeechSynthesisRequest.to_dict, SpeechSynthesisRequest.asdict, jlookup]
  · intro h
    cases h
    cases sr <;> cases sty <;>
      simp [SpeechSynthesisRequest.to_dict, SpeechSynthesisRequest.asdict, jlookup]
  · simp [synthesize, htext, hvid, make_request_issued,
      SpeechSynthesisRequest.to_dict, SpeechSynthesisRequest.asdict]
  · simp [jlookup]

/-- C6 witness: a concrete request and concrete synthesize call. -/
theorem C6_request_serialization_witness :
    (jlookup (SpeechSynthesisRequest.to_dict
        { input_text := "Hi", voice_id := "voice-1", audio_format := "mp3" })
        "input" = some (.str "Hi") ∧
     jlookup (SpeechSynthesisRequest.to_dict
        { input_text := "Hi", voice_id := "voice-1", audio_format := "mp3" })
        "input_text" = none ∧
     jlookup (SpeechSynthesisRequest.to_dict
        { input_text := "Hi", voice_id := "voice-1", audio_format := "mp3" })
        "voice_id" = some (.str "voice-1") ∧
     jlookup (SpeechSynthesisRequest.to_dict
        { input_text := "Hi", voice_id := "voice-1", audio_format := "mp3" })
        "audio_format" = some (.str "mp3") ∧
     ((SpeechSynthesisRequest.sample_rate
        { input_text := "Hi", voice_id := "voice-1", audio_format := "mp3" } = none) →
       jlookup (SpeechSynthesisRequest.to_dict
         { input_text := "Hi", voice_id := "voice-1", audio_format := "mp3" })
         "sample_rate" = none) ∧
     ((SpeechSynthesisRequest.style
        { input_text := "Hi", voice_id := "voice-1", audio_format := "mp3" } = none) →
       jlookup (SpeechSynthesisRequest.to_dict
         { input_text := "Hi", voice_id := "voice-1", audio_format := "mp3" })
         "style" = none) ∧
     ((SpeechSynthesisRequest.emotion
        { input_text := "Hi", voice_id := "voice-1", audio_format := "mp3" } = none) →
       jlookup (SpeechSynthesisRequest.to_dict
         { input_text := "Hi", voice_id := "voice-1", audio_format := "mp3" })
         "emotion" = none) ∧
     (synthesize { api_key := "k" } "Hi" "voice-1" (5/4) "mp3" (.exn "boom")).1 =
       some { method := "POST",
              url := ClientState.base_url { api_key := "k" } ++ "/audio/speech",
              json_data := some (.obj [("voice_id", .str "voice-1"),
                                       ("audio_format", .str "mp3"),
                                       ("input", .str "Hi")]),
              headers := get_headers { api_key := "k" } false } ∧
     jlookup [("voice_id", Json.str "voice-1"), ("audio_format", Json.str "mp3"),
              ("input", Json.str "Hi")] "speed" = none) := by
  exact C6_request_serialization
    { input_text := "Hi", voice_id := "voice-1", audio_format := "mp3" }
    { api_key := "k" } "Hi" "voice-1" (5/4) "mp3" (.exn "boom")
    (by decide) (by decide)

/-- C7: `SpeechSynthesisResponse.from_dict` maps the camelCase payload and
the equivalent snake_case payload to the identical record, and when neither
`audioData` nor `audio_data` is present the `audio_data` field defaults to
the empty string. -/
theorem C7_response_key_casing :
    SpeechSynthesisResponse.from_dict
        (.obj [("audioData", .str "abc=="), ("duration", .num (5/2)),
               ("sampleRate", .num 44100), ("format", .str "mp3")]) =
      .ok { audio_data := .str "abc==", duration := .num (5/2),
            sample_rate := .num 44100, format := .str "mp3" } ∧
    SpeechSynthesisResponse.from_dict
        (.obj [("audio_data", .str "abc=="), ("duration", .num (5/2)),
               ("sample_rate", .num 44100), ("format", .str "mp3")]) =
      .ok { audio_data := .str "abc==", duration := .num (5/2),
            sample_rate := .num 44100, format := .str "mp3" } ∧
    ∀ d, jlookup d "audioData" = none → jlookup d "audio_data" = none →
      ∀ resp, SpeechSynthesisResponse.from_dict (.obj d) = .ok resp →
        resp.audio_data = .str "" := by
  refine ⟨rfl, rfl, ?_⟩
  intro d h1 h2 resp h
  simp only [SpeechSynthesisResponse.from_dict, Except.ok.injEq] at h
  subst h
  simp [dictGet, h1, h2]

/-- C7 witness: the default applies at the empty payload. -/
theorem C7_response_key_casing_witness :
    SpeechSynthesisResponse.audio_data
      { audio_data := .str "", duration := .null,
        sample_rate := .null, format := .null } = .str "" := by
  exact C7_response_key_casing.2.2 [] rfl rfl
    { audio_data := .str "", duration := .null,
      sample_rate := .null, format := .null } rfl

/-- C2 counterexample: a 400 response whose body is valid JSON but not a
JSON object (here the empty array) does not produce an APIError — the
`.get` call on the parsed body raises an AttributeError instead. -/
theorem C2_counterexample :
    (synthesize { api_key := "k" } "Hello" "voice-1" (5/4) "mp3"
        (.ok { status := 400, body := some (.arr []), text := "[]" })).2 =
      .error .attributeError ∧
    ∀ e, (synthesize { api_key := "k" } "Hello" "voice-1" (5/4) "mp3"
        (.ok { status := 400, body := some (.arr []), text := "[]" })).2 ≠
      .error (.apiError e) := by
  refine ⟨rfl, ?_⟩
  intro e h
  have h2 : (Except.error PyError.attributeError :
      Except PyError SpeechSynthesisResponse) = .error (.apiError e) := h
  injection h2 with h3
  exact PyError.noConfusion h3

/-- C2 (amended): on status ≥ 400 other than 401, when the body is not
valid JSON the operation fails with APIError carrying the synthesized
object `{"message": <raw text>}`, and when the body parses to a JSON object
the APIError carries that object, its `message` field when present (else
`"API error: <status>"`), and the status code; a body parsing to non-object
JSON instead raises AttributeError. In particular a 400 response with body
`{"message": "Invalid voice ID"}` makes `synthesize` fail with APIError of
status 400 and message `"Invalid voice ID"`. -/
theorem C2_error_mapping (st : ClientState) (method endpoint : String)
    (json_data : Option Json) (use : Bool) (r : HttpResponse)
    (text voice_id : String) (speed : ℚ) (audio_format : String)
    (hge : 400 ≤ r.status) (hne : r.status ≠ 401)
    (htext : pyBlank text = false) (hvid : pyBlank voice_id = false) :
    (r.body = none →
      make_request st method endpoint json_data use (.ok r) =
        .error (.apiError
          { message := .str r.text, status_code := some r.status,
            response_data := some (.obj [("message", .str r.text)]) })) ∧
    (∀ d, r.body = some (.obj d) →
      make_request st method endpoint json_data use (.ok r) =
        .error (.apiError
          { message := dictGet d "message"
              (.str ("API error: " ++ toString r.status)),
            status_code := some r.status,
            response_data := some (.obj d) })) ∧
    (∀ j, r.body = some j → (∀ d, j ≠ .obj d) →
      make_request st method endpoint json_data use (.ok r) =
        .error .attributeError) ∧
    (synthesize st text voice_id speed audio_format
        (.ok { status := 400,
               body := some (.obj [("message", .str "Invalid voice ID")]) })).2 =
      .error (.apiError
        { message := .str "Invalid voice ID", status_code := some 400,
          response_data := some (.obj [("message", .str "Invalid voice ID")]) }) := by
  refine ⟨?_, ?_, ?_, ?_⟩
  · intro hb
    simp [make_request, hne, hge, hb, dictGet, jlookup]
  · intro d hb
    simp [make_request, hne, hge, hb]
  · intro j hb hnobj
    cases j with
    | obj d => exact absurd rfl (hnobj d)
    | null => simp [make_request, hne, hge, hb]
    | bool b => simp [make_request, hne, hge, hb]
    | num q => simp [make_request, hne, hge, hb]
    | str s => simp [make_request, hne, hge, hb]
    | arr elems => simp [make_request, hne, hge, hb]
  · simp [synthesize, htext, hvid, make_request, dictGet, jlookup]

/-- Concrete 500 response with a body that is not valid JSON, used to
witness the error-mapping theorem. -/
def resp500 : HttpResponse :=
  { status := 500, body := none, text := "Internal Server Error" }

/-- Concrete client state used by witnesses. -/
def stK : ClientState := { api_key := "k" }

/-- C2 witness: concrete 500 response without valid JSON, plus the concrete
400 response with the `Invalid voice ID` message. -/
theorem C2_error_mapping_witness :
    (resp500.body = none →
      make_request { api_key := "k" } "GET" "/voices" none false (.ok resp500) =
        .error (.apiError
          { message := .str resp500.text, status_code := some resp500.status,
            response_data := some (.obj [("message", .str resp500.text)]) })) ∧
    (∀ d, resp500.body = some (.obj d) →
      make_request { api_key := "k" } "GET" "/voices" none false (.ok resp500) =
        .error (.apiError
          { message := dictGet d "message"
              (.str ("API error: " ++ toString resp500.status)),
            status_code := some resp500.status,
            response_data := some (.obj d) })) ∧
    (∀ j, resp500.body = some j → (∀ d, j ≠ .obj d) →
      make_request { api_key := "k" } "GET" "/voices" none false (.ok resp500) =
        .error .attributeError) ∧
    (synthesize { api_key := "k" } "Hello" "voice-1" (5/4) "mp3"
        (.ok { status := 400,
               body := some (.obj [("message", .str "Invalid voice ID")]) })).2 =
      .error (.apiError
        { message := .str "Invalid voice ID", status_code := some 400,
          response_data := some (.obj [("message", .str "Invalid voice ID")]) }) := by
  exact C2_error_mapping { api_key := "k" } "GET" "/voices" none false
    resp500 "Hello" "voice-1" (5/4) "mp3" (by decide) (by decide)
    (by decide) (by decide)

/-- Parsing a list of JSON objects succeeds, produces one Voice per entry in
order, and each voice id is the `id`-else-`voice_id` extraction of the source. -/
lemma parseVoices_obj (xs : List Json) (h : ∀ j ∈ xs, ∃ d, j = .obj d) :
    ∃ vs, parseVoices xs = .ok vs ∧ vs.length = xs.length ∧
      ∀ i (hx : i < xs.length) (hv : i < vs.length) d,
        xs[i] = .obj d → (vs[i]).voice_id = pickVoiceId d := by
  induction xs with
  | nil =>
      exact ⟨[], rfl, rfl, fun i hx => absurd hx (Nat.not_lt_zero i)⟩
  | cons x rest ih =>
      obtain ⟨d₀, hd₀⟩ := h x (List.mem_cons_self x rest)
      obtain ⟨vs, hvs, hlen, hidx⟩ := ih (fun j hj => h j (List.mem_cons_of_mem x hj))
      subst hd₀
      refine ⟨{ voice_id := pickVoiceId d₀, name := dictGet d₀ "name" (.str ""),
                gender := dictGetOpt d₀ "gender",
                language := dictGetOpt d₀ "language" } :: vs, ?_, ?_, ?_⟩
      · simp [parseVoices, voiceOfEntry, hvs]
      · simp [hlen]
      · intro i hx hv d hj
        cases i with
        | zero =>
            simp only [List.getElem_cons_zero] at hj ⊢
            cases hj
            rfl
        | succ n =>
            simp only [List.length_cons, Nat.add_lt_add_iff_right] at hx hv
            simp only [List.getElem_cons_succ] at hj ⊢
            exact hidx n hx hv d hj

/-- A successful `_make_request` means the response had a non-error status
and its body parsed to the returned JSON. -/
lemma make_request_ok_elim (st : ClientState) (method endpoint : String)
    (json_data : Option Json) (use : Bool) (r : HttpResponse) (j : Json)
    (h : make_request st method endpoint json_data use (.ok r) = .ok j) :
    r.status ≠ 401 ∧ ¬ 400 ≤ r.status ∧ r.body = some j := by
  by_cases h1 : r.status = 401
  · simp [make_request, h1] at h
  · by_cases h2 : 400 ≤ r.status
    · rcases hb : r.body with _ | j₂
      · simp [make_request, h1, h2, hb] at h
      · cases j₂ <;> simp [make_request, h1, h2, hb] at h
    · rcases hb : r.body with _ | j₂
      · simp [make_request, h1, h2, hb] at h
      · simp [make_request, h1, h2, hb] at h
        subst h
        exact ⟨h1, h2, rfl⟩

/-- C5: `list_voices` maps a bare-list response and the `voices`-wrapped
response to identical results; when every entry is a JSON object the result
is one Voice per entry in input order with the id taken from `id` else
`voice_id`; an empty list yields the empty sequence without error. -/
theorem C5_shape_tolerance (st : ClientState) (xs : List Json) (ta tb : String)
    (h : ∀ j ∈ xs, ∃ d, j = .obj d) :
    (list_voices st
        (.ok { status := 200, body := some (.arr xs), text := ta })).2 =
      (list_voices st
        (.ok { status := 200, body := some (.obj [("voices", .arr xs)]),
               text := tb })).2 ∧
    (∃ vs, (list_voices st
        (.ok { status := 200, body := some (.arr xs), text := ta })).2 = .ok vs ∧
      vs.length = xs.length ∧
      ∀ i (hx : i < xs.length) (hv : i < vs.length) d,
        xs[i] = .obj d → (vs[i]).voice_id = pickVoiceId d) ∧
    (list_voices st
        (.ok { status := 200, body := some (.arr ([] : List Json)),
               text := ta })).2 = .ok [] := by
  refine ⟨rfl, ?_, rfl⟩
  obtain ⟨vs, hvs, hlen, hidx⟩ := parseVoices_obj xs h
  have hred : (list_voices st
      (.ok { status := 200, body := some (.arr xs), text := ta })).2 =
      parseVoices xs := rfl
  exact ⟨vs, hred.trans hvs, hlen, hidx⟩

/-- C5 witness: the two-voice example from the spec in both shapes. -/
theorem C5_shape_tolerance_witness :
    (list_voices { api_key := "k" }
        (.ok { status := 200,
               body := some (.arr [.obj [("id", .str "voice-1")],
                                   .obj [("id", .str "voice-2")]]),
               text := "a" })).2 =
      (list_voices { api_key := "k" }
        (.ok { status := 200,
               body := some (.obj [("voices",
                 .arr [.obj [("id", .str "voice-1")],
                       .obj [("id", .str "voice-2")]])]),
               text := "b" })).2 ∧
    (∃ vs, (list_voices { api_key := "k" }
        (.ok { status := 200,
               body := some (.arr [.obj [("id", .str "voice-1")],
                                   .obj [("id", .str "voice-2")]]),
               text := "a" })).2 = .ok vs ∧
      vs.length = [Json.obj [("id", .str "voice-1")],
                   Json.obj [("id", .str "voice-2")]].length ∧
      ∀ i (hx : i < [Json.obj [("id", .str "voice-1")],
                     Json.obj [("id", .str "voice-2")]].length)
        (hv : i < vs.length) d,
        [Json.obj [("id", .str "voice-1")],
         Json.obj [("id", .str "voice-2")]][i] = .obj d →
          (vs[i]).voice_id = pickVoiceId d) ∧
    (list_voices { api_key := "k" }
        (.ok { status := 200, body := some (.arr ([] : List Json)),
               text := "a" })).2 = .ok [] := by
  exact C5_shape_tolerance { api_key := "k" }
    [.obj [("id", .str "voice-1")], .obj [("id", .str "voice-2")]] "a" "b"
    (by intro j hj
        simp only [List.mem_cons, List.not_mem_nil, or_false] at hj
        rcases hj with h | h
        · exact ⟨_, h⟩
        · exact ⟨_, h⟩)

/-- C8: `create_access_token` sends its request authenticated with the API
key (never a cached token), stores the returned `access_token` as the cached
credential and returns the full record; a subsequent request with
access-token auth selected then carries `Bearer <that token>`, while with no
cached token the same request falls back to the API key. -/
theorem C8_token_caching (st : ClientState) (r : HttpResponse)
    (d : List (String × Json)) (s : String)
    (hstatus : r.status < 400) (hbody : r.body = some (.obj d))
    (htok : jlookup d "access_token" = some (.str s)) (hs : s ≠ "") :
    (create_access_token st (.ok r)).1 =
      some { method := "POST", url := st.base_url ++ "/auth/token",
             json_data := none,
             headers := [("Authorization", "Bearer " ++ st.api_key),
                         ("Content-Type", "application/json")] } ∧
    (∃ tok, (create_access_token st (.ok r)).2.1 = .ok tok ∧
      tok.access_token = .str s) ∧
    (create_access_token st (.ok r)).2.2 =
      { st with access_token := some (.str s) } ∧
    get_headers { st with access_token := some (.str s) } true =
      [("Authorization", "Bearer " ++ s), ("Content-Type", "application/json")] ∧
    (st.access_token = none → get_headers st true =
      [("Authorization", "Bearer " ++ st.api_key),
       ("Content-Type", "application/json")]) := by
  have h401 : r.status ≠ 401 := by omega
  have h400 : ¬ 400 ≤ r.status := by omega
  have hmr : make_request st "POST" "/auth/token" none false (.ok r) =
      .ok (.obj d) := by
    simp [make_request, h401, h400, hbody]
  refine ⟨?_, ?_, ?_, ?_, ?_⟩
  · simp [create_access_token, hmr, AccessToken.from_dict,
      make_request_issued, headers_api_key]
  · exact ⟨{ access_token := .str s,
             token_type := dictGet d "token_type" (.str "bearer"),
             expires_in := dictGet d "expires_in" (.num 3600),
             scope := dictGetOpt d "scope" },
      by simp [create_access_token, hmr, AccessToken.from_dict, dictGet, htok],
      rfl⟩
  · simp [create_access_token, hmr, AccessToken.from_dict, dictGet, htok]
  · simp [get_headers, headerCredential, Json.truthy, Json.pyStr, bne_iff_ne, hs]
  · intro h
    simp [get_headers, headerCredential, h, Json.pyStr]

/-- C8 witness: concrete token-endpoint success. -/
theorem C8_token_caching_witness :
    (create_access_token stK
        (.ok { status := 200,
               body := some (.obj [("access_token", .str "tok-1")]) })).1 =
      some { method := "POST",
             url := stK.base_url ++ "/auth/token",
             json_data := none,
             headers := [("Authorization", "Bearer " ++ stK.api_key),
               ("Content-Type", "application/json")] } ∧
    (∃ tok, (create_access_token stK
        (.ok { status := 200,
               body := some (.obj [("access_token", .str "tok-1")]) })).2.1 =
      .ok tok ∧ tok.access_token = .str "tok-1") ∧
    (create_access_token stK
        (.ok { status := 200,
               body := some (.obj [("access_token", .str "tok-1")]) })).2.2 =
      { stK with access_token := some (.str "tok-1") } ∧
    get_headers { stK with access_token := some (.str "tok-1") } true =
      [("Authorization", "Bearer " ++ "tok-1"),
       ("Content-Type", "application/json")] ∧
    (stK.access_token = none →
      get_headers stK true =
        [("Authorization", "Bearer " ++ stK.api_key),
         ("Content-Type", "application/json")]) := by
  exact C8_token_caching stK
    { status := 200, body := some (.obj [("access_token", .str "tok-1")]) }
    [("access_token", .str "tok-1")] "tok-1"
    (by decide) rfl (by simp [jlookup]) (by decide)

/-- C9 counterexample: `list_voices` accepts a response containing an entry
with neither `id` nor `voice_id` key, and hands the caller a Voice whose
`voice_id` is the empty string — not a non-empty string. -/
theorem C9_counterexample :
    (list_voices { api_key := "k" }
        (.ok { status := 200, body := some (.arr [Json.obj []]) })).2 =
      .ok [{ voice_id := .str "", name := .str "",
             gender := .null, language := .null }] ∧
    ¬ ∃ s : String, s ≠ "" ∧
      Voice.voice_id { voice_id := .str "", name := .str "",
                       gender := .null, language := .null } = .str s := by
  refine ⟨rfl, ?_⟩
  rintro ⟨s, hs, h⟩
  injection h with h₂
  exact hs h₂.symm

/-- All voices produced by the parse loop have non-empty string ids when
every source entry supplies one. -/
lemma parseVoices_nonempty_ids (xs : List Json)
    (h : ∀ j ∈ xs, ∃ d, j = .obj d ∧ ∃ s, pickVoiceId d = .str s ∧ s ≠ "") :
    ∀ vs, parseVoices xs = .ok vs →
      ∀ v ∈ vs, ∃ s, v.voice_id = .str s ∧ s ≠ "" := by
  induction xs with
  | nil =>
      intro vs hvs v hv
      injection hvs with h₂
      subst h₂
      simp at hv
  | cons x rest ih =>
      intro vs hvs v hv
      obtain ⟨d₀, hd₀, s₀, hs₀, hs₀ne⟩ := h x (List.mem_cons_self x rest)
      subst hd₀
      simp only [parseVoices, voiceOfEntry] at hvs
      cases hrest : parseVoices rest with
      | error e => rw [hrest] at hvs; simp at hvs
      | ok vs₂ =>
          rw [hrest] at hvs
          simp only [Except.ok.injEq] at hvs
          subst hvs
          rcases List.mem_cons.mp hv with hv₂ | hv₂
          · subst hv₂
            exact ⟨s₀, hs₀, hs₀ne⟩
          · exact ih (fun j hj => h j (List.mem_cons_of_mem (Json.obj d₀) hj))
              vs₂ hrest v hv₂

/-- C9 (amended): a Voice handed to the caller carries whatever the
`id`-else-`voice_id` extraction of the entry yields — the empty string (`list_voices`) or
null (`get_voice`) when both keys are missing — so non-emptiness holds
exactly when every server record supplies a non-empty string id, as stated
here. -/
theorem C9_nonempty_when_supplied (st : ClientState) (r r₂ : HttpResponse)
    (bj : Json) (xs : List Json) (d : List (String × Json))
    (voice_id s : String)
    (hxs : ∀ j ∈ xs, ∃ dj, j = .obj dj ∧ ∃ sj, pickVoiceId dj = .str sj ∧ sj ≠ "") :
    (r.body = some bj → extractVoiceList bj = .ok xs →
      ∀ vs, (list_voices st (.ok r)).2 = .ok vs →
        ∀ v ∈ vs, ∃ sv, v.voice_id = .str sv ∧ sv ≠ "") ∧
    (r₂.body = some (.obj d) →
      dictGet d "id" (dictGetOpt d "voice_id") = .str s → s ≠ "" →
      ∀ v, (get_voice st voice_id (.ok r₂)).2 = .ok v → v.voice_id = .str s) := by
  constructor
  · intro hb hext vs hok v hv
    have hok₂ : list_voices_result
        (make_request st "GET" "/voices" none false (.ok r)) = .ok vs := hok
    cases hmr : make_request st "GET" "/voices" none false (.ok r) with
    | error e => rw [hmr] at hok₂; simp [list_voices_result] at hok₂
    | ok j =>
        obtain ⟨-, -, hbj⟩ := make_request_ok_elim st "GET" "/voices"
          none false r j hmr
        rw [hb] at hbj
        injection hbj with hbj
        subst hbj
        rw [hmr] at hok₂
        simp only [list_voices_result, hext] at hok₂
        exact parseVoices_nonempty_ids xs hxs vs hok₂ v hv
  · intro hb hpick hs v hok
    by_cases hblank : pyBlank voice_id = true
    · simp [get_voice, hblank] at hok
    · have hok₂ : get_voice_result
          (make_request st "GET" ("/voices/" ++ voice_id) none false (.ok r₂)) =
          .ok v := by
        simpa [get_voice, hblank] using hok
      cases hmr : make_request st "GET" ("/voices/" ++ voice_id)
          none false (.ok r₂) with
      | error e => rw [hmr] at hok₂; simp [get_voice_result] at hok₂
      | ok j =>
          obtain ⟨-, -, hbj⟩ := make_request_ok_elim st "GET"
            ("/voices/" ++ voice_id) none false r₂ j hmr
          rw [hb] at hbj
          injection hbj with hbj
          subst hbj
          rw [hmr] at hok₂
          simp only [get_voice_result, Except.ok.injEq] at hok₂
          subst hok₂
          exact hpick

/-- Concrete voice-list response used to witness the amended C9 claim. -/
def respVoiceList : HttpResponse :=
  { status := 200, body := some (.arr [.obj [("id", .str "voice-1")]]) }

/-- Concrete single-voice response used to witness the amended C9 claim. -/
def respVoice9 : HttpResponse :=
  { status := 200, body := some (.obj [("id", .str "voice-9")]) }

/-- C9 amended-claim witness: concrete list and single-voice responses with
non-empty ids. -/
theorem C9_nonempty_when_supplied_witness :
    (respVoiceList.body = some (.arr [.obj [("id", .str "voice-1")]]) →
      extractVoiceList (.arr [.obj [("id", .str "voice-1")]]) =
        .ok [.obj [("id", .str "voice-1")]] →
      ∀ vs, (list_voices stK (.ok respVoiceList)).2 =
        .ok vs → ∀ v ∈ vs, ∃ sv, v.voice_id = .str sv ∧ sv ≠ "") ∧
    (respVoice9.body = some (.obj [("id", .str "voice-9")]) →
      dictGet [("id", .str "voice-9")] "id"
          (dictGetOpt [("id", .str "voice-9")] "voice_id") = .str "voice-9" →
      "voice-9" ≠ "" →
      ∀ v, (get_voice stK "voice-9" (.ok respVoice9)).2 = .ok v →
        v.voice_id = .str "voice-9") := by
  exact C9_nonempty_when_supplied stK respVoiceList respVoice9
    (.arr [.obj [("id", .str "voice-1")]])
    [.obj [("id", .str "voice-1")]]
    [("id", .str "voice-9")] "voice-9" "voice-9"
    (by intro j hj
        simp only [List.mem_cons, List.not_mem_nil, or_false] at hj
        exact ⟨[("id", .str "voice-1")], hj, "voice-1",
          by simp [pickVoiceId, dictGet, jlookup], by decide⟩)

/-- C10: when the token-endpoint response lacks `access_token`, the parsed
parsed `access_token` is the empty string, that empty string is stored as
the cached credential, and header construction treats it as absent — a
subsequent access-token-auth request falls back to the API key. -/
theorem C10_empty_token_fallback (st : ClientState) (r : HttpResponse)
    (d : List (String × Json)) (hstatus : r.status < 400)
    (hbody : r.body = some (.obj d))
    (hmiss : jlookup d "access_token" = none) :
    (∃ tok, (create_access_token st (.ok r)).2.1 = .ok tok ∧
      tok.access_token = .str "") ∧
    (create_access_token st (.ok r)).2.2.access_token = some (.str "") ∧
    get_headers (create_access_token st (.ok r)).2.2 true =
      [("Authorization", "Bearer " ++ st.api_key),
       ("Content-Type", "application/json")] := by
  have h401 : r.status ≠ 401 := by omega
  have h400 : ¬ 400 ≤ r.status := by omega
  have hmr : make_request st "POST" "/auth/token" none false (.ok r) =
      .ok (.obj d) := by
    simp [make_request, h401, h400, hbody]
  refine ⟨?_, ?_, ?_⟩
  · exact ⟨{ access_token := .str "",
             token_type := dictGet d "token_type" (.str "bearer"),
             expires_in := dictGet d "expires_in" (.num 3600),
             scope := dictGetOpt d "scope" },
      by simp [create_access_token, hmr, AccessToken.from_dict, dictGet, hmiss],
      rfl⟩
  · simp [create_access_token, hmr, AccessToken.from_dict, dictGet, hmiss]
  · simp [create_access_token, hmr, AccessToken.from_dict, dictGet, hmiss,
      get_headers, headerCredential, Json.truthy, Json.pyStr]

/-- C10 witness: concrete token response without an `access_token` key. -/
theorem C10_empty_token_fallback_witness :
    (∃ tok, (create_access_token { api_key := "k" }
        (.ok { status := 200,
               body := some (.obj [("token_type", .str "bearer")]) })).2.1 =
      .ok tok ∧ tok.access_token = .str "") ∧
    (create_access_token { api_key := "k" }
        (.ok { status := 200,
               body := some (.obj [("token_type", .str "bearer")]) })).2.2.access_token =
      some (.str "") ∧
    get_headers (create_access_token { api_key := "k" }
        (.ok { status := 200,
               body := some (.obj [("token_type", .str "bearer")]) })).2.2 true =
      [("Authorization", "Bearer " ++ ClientState.api_key { api_key := "k" }),
       ("Content-Type", "application/json")] := by
  exact C10_empty_token_fallback { api_key := "k" }
    { status := 200, body := some (.obj [("token_type", .str "bearer")]) }
    [("token_type", .str "bearer")] (by decide) rfl (by simp [jlookup])

end Spc
